import Mathlib

/-!
Shallow embedding of the tool-calling router, the orchestration loop
(`src/showcase/llm-integration/tool-calling.ts`) and the RAG retrieval
service (`src/showcase/rag/embeddings.ts`) of the
athlete-performance-platform-showcase repository, together with theorems
settling the specification claims about them.

JavaScript values flowing through the router are modelled by `JValue`
(JSON values: the bodies are produced by `request.json()`, so `undefined`
is represented by an absent field, i.e. `Option JValue = none`).
-/

/-- JSON values, as produced by `request.json()` / consumed by
`NextResponse.json`.  Objects are association lists of fields. -/
inductive JValue where
  | null : JValue
  | bool (b : Bool) : JValue
  | num (q : ℚ) : JValue
  | str (s : String) : JValue
  | arr (elems : List JValue) : JValue
  | obj (fields : List (String × JValue)) : JValue

/-- JavaScript property access `v.key`: only objects have the fields we
model; accessing a named property of a string/number/bool/array yields
`undefined` (`none`).  (`v.null` property access throws; the one place the
router accesses properties of a possibly-`null` body is modelled at the
call site, in `POST`.) -/
def JValue.getField (v : JValue) (key : String) : Option JValue :=
  match v with
  | .obj fields => fields.lookup key
  | _ => none

/-- JavaScript truthiness of a defined value: `null`, `false`, `0` and
`""` are falsy; every object and array is truthy. -/
def JValue.truthy : JValue → Bool
  | .null => false
  | .bool b => b
  | .num q => decide (q ≠ 0)
  | .str s => !s.isEmpty
  | .arr _ => true
  | .obj _ => true

/-- Truthiness of a possibly-`undefined` value (`undefined` is falsy). -/
def truthyOpt : Option JValue → Bool
  | none => false
  | some v => v.truthy

/-- String coercion used by the template literal
`` `Unknown tool: ${tool_name}` ``.  (Only the string case is ever
exercised by a request whose `tool_name` names anything; the remaining
cases give a fixed plain rendering.) -/
def jsDisplay : JValue → String
  | .str s => s
  | .num q => toString q
  | .bool b => toString b
  | .null => "null"
  | .arr _ => ""
  | .obj _ => "[object Object]"

/-- Minimal JSON serialization, mirroring `JSON.stringify` on the values
the handlers actually return (escaping of exotic characters inside string
literals is not modelled; no handler result contains any). -/
def JValue.stringify : JValue → String
  | .null => "null"
  | .bool b => toString b
  | .num q => toString q
  | .str s => "\"" ++ s ++ "\""
  | .arr elems => "[" ++ String.intercalate "," (elems.attach.map fun e => e.1.stringify) ++ "]"
  | .obj fields =>
      "\x7b" ++
        String.intercalate ","
          (fields.attach.map fun f => "\"" ++ f.1.1 ++ "\":" ++ f.1.2.stringify) ++
      "\x7d"
decreasing_by
  all_goals simp_wf
  · have h := List.sizeOf_lt_of_mem e.2
    simp [JValue.arr.sizeOf_spec]
    omega
  · have h := List.sizeOf_lt_of_mem f.2
    have h2 : sizeOf f.1.2 < sizeOf f.1 := by
      obtain ⟨a, b⟩ := f.1
      simp [Prod.mk.sizeOf_spec]
    simp [JValue.obj.sizeOf_spec]
    omega

/-- `retrieveAggregatedData(entityId, timePeriodDays)` from
`tool-calling.ts` (router file): the stubbed aggregation result. -/
def retrieveAggregatedData (entityId : JValue) (timePeriodDays : JValue) : JValue :=
  .obj [("entity_id", entityId),
        ("time_period_days", timePeriodDays),
        ("data_sources", .arr [.str "source1", .str "source2"]),
        ("aggregated_data", .obj [])]

/-- A tool registry entry: description plus handler.  A handler either
returns a value or throws, modelled as `Except` over the thrown error's
message. -/
structure ToolDefinition where
  description : String
  handler : JValue → Except String JValue

/-- Handler of the `analyze_data` tool: destructures
`{ entity_id, time_period_days = 730 }`, throws
`"entity_id parameter is required"` when `entity_id` is falsy or absent,
otherwise returns `retrieveAggregatedData`. -/
def analyzeDataHandler (parameters : JValue) : Except String JValue :=
  let time_period_days := (parameters.getField "time_period_days").getD (.num 730)
  match parameters.getField "entity_id" with
  | none => .error "entity_id parameter is required"
  | some entity_id =>
      if entity_id.truthy then
        .ok (retrieveAggregatedData entity_id time_period_days)
      else
        .error "entity_id parameter is required"

/-- Handler of the `get_summary` tool: always returns the stub summary. -/
def getSummaryHandler (_parameters : JValue) : Except String JValue :=
  .ok (.obj [("summary", .str "Example summary")])

/-- The `analyze_data` registry entry. -/
def analyzeDataTool : ToolDefinition :=
  { description := "Comprehensive data analysis tool with multi-modal data integration",
    handler := analyzeDataHandler }

/-- The `get_summary` registry entry. -/
def getSummaryTool : ToolDefinition :=
  { description := "Get quick summary of entity data",
    handler := getSummaryHandler }

/-- `TOOL_REGISTRY`: name-keyed mapping of the two registered tools. -/
def TOOL_REGISTRY : List (String × ToolDefinition) :=
  [("analyze_data", analyzeDataTool), ("get_summary", getSummaryTool)]

/-- `TOOL_REGISTRY[tool_name]` where `tool_name` is an arbitrary JSON
value: a JavaScript computed property key is string-coerced; since no
registry key coincides with the coercion of a non-string value, lookup
succeeds only on `.str` keys. -/
def registryLookup (tool_name : JValue) : Option ToolDefinition :=
  match tool_name with
  | .str s => TOOL_REGISTRY.lookup s
  | _ => none

/-- An HTTP response produced by `NextResponse.json(body, {status})`
(status defaults to 200). -/
structure RouterResponse where
  status : Nat
  body : JValue

/-- The inner `try`/`catch` of `POST` around `tool.handler(parameters)`:
a successful handler yields `{success, tool_name, result}` with status
200; a thrown handler error is caught and wrapped as
`{error: "Tool execution failed: ...", tool_name}` with status 500. -/
def handlerResponse : Except String JValue → JValue → RouterResponse
  | .ok result, tool_name =>
      ⟨200, .obj [("success", .bool true),
                  ("tool_name", tool_name),
                  ("result", .str result.stringify)]⟩
  | .error msg, tool_name =>
      ⟨500, .obj [("error", .str ("Tool execution failed: " ++ msg)),
                  ("tool_name", tool_name)]⟩

/-- `const tool = TOOL_REGISTRY[tool_name]; if (!tool) ...` of `POST`:
an unknown name yields the error envelope listing `available_tools`;
otherwise the handler runs (`handlerResponse`). -/
def executeLookedUp : Option ToolDefinition → JValue → JValue → RouterResponse
  | none, tool_name, _ =>
      ⟨400, .obj [("error", .str ("Unknown tool: " ++ jsDisplay tool_name)),
                  ("available_tools", .arr (TOOL_REGISTRY.map fun p => .str p.1))]⟩
  | some tool, tool_name, parameters =>
      handlerResponse (tool.handler parameters) tool_name

/-- The required-field validation of `POST` on the destructured
`tool_name` and `parameters` (`if (!tool_name)` / `if (!parameters)`,
where an absent field is `undefined` and hence falsy). -/
def handleFields : Option JValue → Option JValue → RouterResponse
  | none, _ => ⟨400, .obj [("error", .str "Missing required field: tool_name")]⟩
  | some tool_name, parameters =>
      if !tool_name.truthy then
        ⟨400, .obj [("error", .str "Missing required field: tool_name")]⟩
      else
        match parameters with
        | none => ⟨400, .obj [("error", .str "Missing required field: parameters")]⟩
        | some ps =>
            if !ps.truthy then
              ⟨400, .obj [("error", .str "Missing required field: parameters")]⟩
            else
              executeLookedUp (registryLookup tool_name) tool_name ps

/-- The `POST` handler of the MCP router.  Its input is the outcome of
`request.json()`: `.error` when the body fails to parse as JSON.  A body
that parses to JSON `null` makes the destructuring
`const { tool_name, parameters } = body` throw, which the outer `catch`
turns into the same invalid-JSON response. -/
def POST (body : Except String JValue) : RouterResponse :=
  match body with
  | .error _ => ⟨400, .obj [("error", .str "Invalid JSON in request body")]⟩
  | .ok .null => ⟨400, .obj [("error", .str "Invalid JSON in request body")]⟩
  | .ok b => handleFields (b.getField "tool_name") (b.getField "parameters")

/-- The `GET` handler of the MCP router: tool discovery listing. -/
def GET : RouterResponse :=
  ⟨200, .obj [("success", .bool true),
              ("available_tools",
               .arr (TOOL_REGISTRY.map fun p =>
                 .obj [("name", .str p.1), ("description", .str p.2.description)])),
              ("message", .str "MCP Router - Available Tools")]⟩

/-! ## Orchestration loop (`chatWithTools`, same file)

The two network effects — `anthropic.messages.create` and the
`fetch`-based `executeToolCall` against the router endpoint — are modelled
as oracle parameters returning `Except String _` (an `.error` is a thrown
exception carrying its message). -/

/-- A content block of a model response (`response.content` entries). -/
inductive ContentBlock where
  | text (s : String) : ContentBlock
  | toolUse (id : String) (name : String) (input : JValue) : ContentBlock

/-- `content.type === 'tool_use'`. -/
def ContentBlock.isToolUse : ContentBlock → Bool
  | .toolUse .. => true
  | _ => false

/-- A model response: its list of content blocks. -/
structure ModelResponse where
  content : List ContentBlock

/-- `extractTextFromResponse`: collect the `text` blocks in order and join
them with `"\n"`. -/
def extractTextFromResponse (response : ModelResponse) : String :=
  String.intercalate "\n"
    (response.content.filterMap fun c =>
      match c with
      | .text s => some s
      | _ => none)

/-- The `try`/`catch` body executed for the tool-use block found by
`chatWithTools`: run the tool via the router (`executeToolCall`), send the
result back to the model (`secondCall`), and return the text of that
follow-up response; any failure in this round-trip is caught and turned
into the `"Error executing tool: ..."` text. -/
def toolRoundTrip (blk : ContentBlock)
    (executeTool : ContentBlock → Except String JValue)
    (secondCall : ContentBlock → JValue → Except String ModelResponse) : String :=
  match (do
      let toolResult ← executeTool blk
      let toolResponse ← secondCall blk toolResult
      pure (extractTextFromResponse toolResponse) : Except String String) with
  | .ok t => t
  | .error msg => "Error executing tool: " ++ msg

/-- `chatWithTools`: the first `messages.create` call is the `firstCall`
outcome; its `for`-loop returns on the first `tool_use` content block
(`find?`), running `toolRoundTrip` on it; with no tool-use block it
returns the first response's text.  A failure of the first model call is
outside every `try` and propagates. -/
def chatWithTools (firstCall : Except String ModelResponse)
    (executeTool : ContentBlock → Except String JValue)
    (secondCall : ContentBlock → JValue → Except String ModelResponse) :
    Except String String :=
  match firstCall with
  | .error e => .error e
  | .ok response =>
      match response.content.find? ContentBlock.isToolUse with
      | some blk => .ok (toolRoundTrip blk executeTool secondCall)
      | none => .ok (extractTextFromResponse response)

/-! ## RAG retrieval service (`src/showcase/rag/embeddings.ts`) -/

/-- A row returned by the vector database query
(`content, document_source, 1 - (embedding <=> $1::vector) AS
similarity_score`).  The score is the rational number the row's
`similarity_score` denotes (`parseFloat` of its textual form). -/
structure DBRow where
  content : String
  document_source : String
  similarity_score : ℚ

/-- `RAGContext` interface. -/
structure RAGContext where
  knowledgeBaseArticles : List String
  totalResults : ℕ

/-- `embeddingToVectorString`: `'[' + embedding.join(',') + ']'`. -/
def embeddingToVectorString (embedding : List ℚ) : String :=
  "[" ++ String.intercalate "," (embedding.map toString) ++ "]"

/-- One decimal digit, `d < 10`, rendered as its character. -/
def digitStr (d : ℕ) : String := Nat.repr d

/-- The four fraction digits of `m < 10000`, zero-padded. -/
def fourDigits (m : ℕ) : String :=
  digitStr (m / 1000 % 10) ++ digitStr (m / 100 % 10) ++
    digitStr (m / 10 % 10) ++ digitStr (m % 10)

/-- `Number.prototype.toFixed(4)` on an exact rational: per ECMAScript,
for a negative receiver the sign is emitted and the magnitude formatted;
the magnitude is scaled by `10^4` and rounded to the nearest integer,
half-up.  The scaled magnitude is computed directly on the numerator and
denominator, `⌊(|q| * 10^4) + 1/2⌋ = (2·|num|·10^4 + den) / (2·den)`;
`toFixed4_scaled_eq_round` below proves this equal to
`(round (|q| * 10000)).toNat`. -/
def toFixed4 (q : ℚ) : String :=
  let n : ℕ := (2 * q.num.natAbs * 10000 + q.den) / (2 * q.den)
  (if q < 0 then "-" else "") ++ Nat.repr (n / 10000) ++ "." ++ fourDigits (n % 10000)

/-- The per-row formatting of `retrieveRAGContext` step 3:
`` `[Source: ${result.document_source} (Similarity: ${parseFloat(result.similarity_score).toFixed(4)})]\n${result.content}` ``. -/
def formatRow (r : DBRow) : String :=
  "[Source: " ++ r.document_source ++ " (Similarity: " ++
    toFixed4 r.similarity_score ++ ")]\n" ++ r.content

/-- Refinement target for the clamping claim, modelled from the spec's
words (`similarity returned to callers = clamp(1 − distance, 0, 1)`); the
source has no counterpart of `clamp01`. -/
def clamp01 (q : ℚ) : ℚ := if q < 0 then 0 else if 1 < q then 1 else q

/-- Per-row formatting as the spec describes it: the raw score clamped to
`[0,1]` before being rendered.  Spec-side definition, for comparison with
`formatRow` (the source's behaviour). -/
def formatRowClamped (r : DBRow) : String :=
  "[Source: " ++ r.document_source ++ " (Similarity: " ++
    toFixed4 (clamp01 r.similarity_score) ++ ")]\n" ++ r.content

/-- `retrieveRAGContext`: embed the query (`queryEmbedding` is the awaited
outcome of `generateEmbedding`), query the vector database (`db`, given
the pgvector string and `topK`), return `{[], 0}` on no rows, otherwise
the formatted articles; the surrounding `try`/`catch` re-throws any
failure as `"RAG retrieval failed: " ++` the original message. -/
def retrieveRAGContext (queryEmbedding : Except String (List ℚ))
    (db : String → ℕ → Except String (List DBRow)) (topK : ℕ := 5) :
    Except String RAGContext :=
  match (do
      let e ← queryEmbedding
      let results ← db (embeddingToVectorString e) topK
      if results.isEmpty then
        pure ⟨[], 0⟩
      else
        let knowledgeArticles := results.map formatRow
        pure ⟨knowledgeArticles, knowledgeArticles.length⟩ :
      Except String RAGContext) with
  | .ok c => .ok c
  | .error msg => .error ("RAG retrieval failed: " ++ msg)

/-- `generateContextualQuery`. -/
def generateContextualQuery (userQuery : String) (context : Option String) : String :=
  match context with
  | some c => userQuery ++ " " ++ c
  | none => userQuery

/-- A vector database whose store is empty: every query returns no rows. -/
def emptyDB : String → ℕ → Except String (List DBRow) := fun _ _ => .ok []

/-- A router oracle that returns `null` for every tool call (used to
instantiate closed statements about `chatWithTools`). -/
def nullExec : ContentBlock → Except String JValue := fun _ => .ok .null

/-- A follow-up-model oracle that returns an empty response (used to
instantiate closed statements about `chatWithTools`). -/
def emptySecond : ContentBlock → JValue → Except String ModelResponse := fun _ _ => .ok ⟨[]⟩

/-- The tool-use block of the spec's orchestration scenario:
`analyze_data({entity_id:"123"})`. -/
def scenarioToolUse : ContentBlock :=
  .toolUse "toolu_01" "analyze_data" (.obj [("entity_id", .str "123")])

/-- Router oracle for the scenario: the `analyze_data` handler's result
for entity `"123"` with the default look-back period. -/
def scenarioExec : ContentBlock → Except String JValue :=
  fun _ => .ok (retrieveAggregatedData (.str "123") (.num 730))

/-- Follow-up-model oracle for the scenario: a second response whose text
answers from the tool result. -/
def scenarioSecond : ContentBlock → JValue → Except String ModelResponse :=
  fun _ _ => .ok ⟨[.text "Entity 123 shows strong aggregate performance."]⟩

/-! ## Theorems -/

/-- Faithfulness of the scaled-magnitude computation inside `toFixed4`:
it is exactly `round (|q| * 10^4)` (half-up rounding, as ECMAScript's
`toFixed` performs on the magnitude). -/
theorem toFixed4_scaled_eq_round (q : ℚ) :
    (2 * q.num.natAbs * 10000 + q.den) / (2 * q.den) = (round (|q| * 10000)).toNat := by
  have habs : |q| = (q.num.natAbs : ℚ) / (q.den : ℚ) := by
    rcases le_or_lt 0 q with h | h
    · rw [abs_of_nonneg h]
      nth_rewrite 1 [← Rat.num_div_den q]
      congr 1
      rw [Int.cast_natAbs]
      norm_cast
      exact (abs_of_nonneg (Rat.num_nonneg.mpr h)).symm
    · rw [abs_of_neg h]
      nth_rewrite 1 [← Rat.num_div_den q]
      rw [← neg_div]
      congr 1
      rw [Int.cast_natAbs]
      norm_cast
      exact (abs_of_neg (Rat.num_neg.mpr h)).symm
  have hcast : (q.num.natAbs : ℚ) / q.den * 10000 + 1/2
      = ((2 * q.num.natAbs * 10000 + q.den : ℕ) : ℚ) / ((2 * q.den : ℕ) : ℚ) := by
    have hb : (q.den : ℚ) ≠ 0 := by exact_mod_cast q.den_nz
    push_cast
    field_simp
    ring
  rw [round_eq, habs, hcast, Int.floor_toNat, Nat.floor_div_nat, Nat.floor_natCast]

/-- The fraction part rendered by `toFixed4` always has exactly four
characters (four decimal places). -/
theorem fourDigits_length (m : ℕ) : (fourDigits m).length = 4 := by
  have hd : ∀ d, d < 10 → (Nat.repr d).length = 1 := by decide
  unfold fourDigits digitStr
  rw [String.length_append, String.length_append, String.length_append,
    hd _ (Nat.mod_lt _ (by norm_num)), hd _ (Nat.mod_lt _ (by norm_num)),
    hd _ (Nat.mod_lt _ (by norm_num)), hd _ (Nat.mod_lt _ (by norm_num))]

/-- C1 counterexample: a row whose raw `similarity_score` is `-1/2`
(`1 - cosine_distance` for near-opposite vectors) is surfaced by the
source's formatter as the negative similarity `-0.5000`, differing from
the spec's clamped formatting, which would surface `0.0000`: the raw
value is not clamped to `[0,1]` before being formatted. -/
theorem similarity_unclamped_counterexample :
    formatRow ⟨"c", "s", mkRat (-1) 2⟩ = "[Source: s (Similarity: -0.5000)]\nc" ∧
    formatRowClamped ⟨"c", "s", mkRat (-1) 2⟩ = "[Source: s (Similarity: 0.0000)]\nc" ∧
    formatRow ⟨"c", "s", mkRat (-1) 2⟩ ≠ formatRowClamped ⟨"c", "s", mkRat (-1) 2⟩ := by
  refine ⟨by decide, by decide, by decide⟩

/-- C1 (amended): the retrieval formatter surfaces the raw
`1 - cosine_distance` value without clamping: every row with a negative
raw similarity is formatted with a minus-signed similarity score. -/
theorem formatRow_surfaces_negative_similarity (r : DBRow)
    (h : r.similarity_score < 0) :
    ∃ s, formatRow r
        = "[Source: " ++ r.document_source ++ " (Similarity: " ++ ("-" ++ s) ++ ")]\n"
            ++ r.content
      ∧ toFixed4 r.similarity_score = "-" ++ s := by
  refine ⟨Nat.repr ((2 * r.similarity_score.num.natAbs * 10000 + r.similarity_score.den) /
        (2 * r.similarity_score.den) / 10000) ++ "." ++
      fourDigits ((2 * r.similarity_score.num.natAbs * 10000 + r.similarity_score.den) /
        (2 * r.similarity_score.den) % 10000), ?_, ?_⟩ <;>
    simp only [formatRow, toFixed4, if_pos h, String.append_assoc]

/-- C1 witness: the amended theorem applied at the concrete row
`{content := "c", document_source := "s", similarity_score := -1/2}`. -/
theorem formatRow_surfaces_negative_similarity_witness :
    mkRat (-1) 2 < 0 ∧
    ∃ s, formatRow ⟨"c", "s", mkRat (-1) 2⟩
        = "[Source: " ++ "s" ++ " (Similarity: " ++ ("-" ++ s) ++ ")]\n" ++ "c"
      ∧ toFixed4 (mkRat (-1) 2) = "-" ++ s :=
  ⟨by decide, formatRow_surfaces_negative_similarity ⟨"c", "s", mkRat (-1) 2⟩ (by decide)⟩

/-- C8: every retrieval row is formatted as exactly the literal template
`"[Source: {source} (Similarity: {score:.4f})]\n{content}"`, the
similarity score being rendered by `toFixed4` with exactly four
characters after the decimal point. -/
theorem formatRow_literal_template (r : DBRow) :
    ∃ ip fr, formatRow r
        = "[Source: " ++ r.document_source ++ " (Similarity: " ++ ip ++ "." ++ fr ++ ")]\n"
            ++ r.content
      ∧ ip ++ "." ++ fr = toFixed4 r.similarity_score
      ∧ fr.length = 4 := by
  refine ⟨(if r.similarity_score < 0 then "-" else "") ++
      Nat.repr ((2 * r.similarity_score.num.natAbs * 10000 + r.similarity_score.den) /
        (2 * r.similarity_score.den) / 10000),
    fourDigits ((2 * r.similarity_score.num.natAbs * 10000 + r.similarity_score.den) /
        (2 * r.similarity_score.den) % 10000), ?_, ?_, fourDigits_length _⟩ <;>
    simp only [formatRow, toFixed4, String.append_assoc]

/-- C3 counterexample: an embedding failure with message `"boom"` is
surfaced by `retrieveRAGContext` as an error with message
`"RAG retrieval failed: boom"` — re-wrapped, not the unchanged original
message. -/
theorem rag_error_rewrapped_counterexample :
    retrieveRAGContext (.error "boom") emptyDB 5 = .error "RAG retrieval failed: boom" ∧
    ("RAG retrieval failed: boom" : String) ≠ "boom" :=
  ⟨rfl, by decide⟩

/-- C3 (amended): when the embedding call fails, `retrieveRAGContext`
propagates the failure to its caller as an error (no silent fallback),
but re-wrapped: the surfaced message is `"RAG retrieval failed: "`
prefixed to the embedding service's message. -/
theorem rag_embedding_error_propagated_rewrapped (msg : String)
    (db : String → ℕ → Except String (List DBRow)) (topK : ℕ) :
    retrieveRAGContext (.error msg) db topK
      = .error ("RAG retrieval failed: " ++ msg) := rfl

/-- C9: when the vector database returns no rows, `retrieveRAGContext`
returns the empty context (zero articles, `totalResults = 0`), not an
error. -/
theorem rag_no_rows_empty_context (e : List ℚ)
    (db : String → ℕ → Except String (List DBRow)) (topK : ℕ)
    (h : db (embeddingToVectorString e) topK = .ok []) :
    retrieveRAGContext (.ok e) db topK = .ok ⟨[], 0⟩ := by
  simp [retrieveRAGContext, h, bind, Except.bind, pure, Except.pure]

/-- C9 witness: the empty store queried with the embedding `[1]` and the
default `topK` returns the empty context. -/
theorem rag_no_rows_empty_context_witness :
    emptyDB (embeddingToVectorString [1]) 5 = .ok [] ∧
    retrieveRAGContext (.ok [1]) emptyDB 5 = .ok ⟨[], 0⟩ :=
  ⟨rfl, rag_no_rows_empty_context [1] emptyDB 5 rfl⟩

/-- C10 counterexample: a body that fails to parse is answered with the
envelope `{error: "Invalid JSON in request body"}`, which is not the
claimed literal `{error: "invalid request body"}`. -/
theorem invalid_body_message_counterexample :
    POST (.error "Unexpected token") = ⟨400, .obj [("error", .str "Invalid JSON in request body")]⟩ ∧
    JValue.obj [("error", .str "Invalid JSON in request body")]
      ≠ .obj [("error", .str "invalid request body")] :=
  ⟨rfl, by simp⟩

/-- C10 (amended): for every request body that fails to parse as JSON,
the `POST` handler returns exactly the envelope
`{error: "Invalid JSON in request body"}` with status 400. -/
theorem invalid_body_envelope (e : String) :
    POST (.error e) = ⟨400, .obj [("error", .str "Invalid JSON in request body")]⟩ := rfl

/-- C4 counterexample: a failure of the initial model call propagates out
of `chatWithTools` unconverted — the loop does not always terminate with
a text result. -/
theorem chat_first_call_error_propagates :
    chatWithTools (.error "model call failed") nullExec emptySecond
      = .error "model call failed" := rfl

/-- C4 (amended): once the initial model call has succeeded,
`chatWithTools` always terminates with a text result — in particular any
failure during the tool-call round-trip is caught and converted into a
text answer — but a failure of the initial model call itself propagates
to the caller unchanged. -/
theorem chatWithTools_text_after_first_success (r : ModelResponse)
    (executeTool : ContentBlock → Except String JValue)
    (secondCall : ContentBlock → JValue → Except String ModelResponse) :
    (∃ t, chatWithTools (.ok r) executeTool secondCall = .ok t) ∧
    ∀ e, chatWithTools (.error e) executeTool secondCall = .error e := by
  constructor
  · cases h : r.content.find? ContentBlock.isToolUse with
    | some blk =>
        exact ⟨toolRoundTrip blk executeTool secondCall, by simp [chatWithTools, h]⟩
    | none => exact ⟨extractTextFromResponse r, by simp [chatWithTools, h]⟩
  · intro e
    rfl

/-- C5: when the model response contains a first `tool_use` block `blk`
(after any non-tool blocks `pre`), `chatWithTools` performs exactly the
round-trip for `blk` — one router execution and one follow-up model call
whose text is returned — and everything after `blk`, including further
`tool_use` blocks, is ignored. -/
theorem chatWithTools_first_tool_use_only (pre post : List ContentBlock)
    (blk : ContentBlock)
    (executeTool : ContentBlock → Except String JValue)
    (secondCall : ContentBlock → JValue → Except String ModelResponse)
    (hpre : ∀ b ∈ pre, b.isToolUse = false) (hblk : blk.isToolUse = true) :
    chatWithTools (.ok ⟨pre ++ blk :: post⟩) executeTool secondCall
      = .ok (toolRoundTrip blk executeTool secondCall) := by
  have hfind : (pre ++ blk :: post).find? ContentBlock.isToolUse = some blk := by
    induction pre with
    | nil =>
        rw [List.nil_append]
        exact List.find?_cons_of_pos _ hblk
    | cons a as ih =>
        rw [List.cons_append,
          List.find?_cons_of_neg _ (by simp [hpre a (List.mem_cons_self a as)])]
        exact ih fun b hb => hpre b (List.mem_cons_of_mem a hb)
  simp [chatWithTools, hfind]

/-- C5 witness: the spec's orchestration scenario.  The first response
contains a text block, then `analyze_data({entity_id:"123"})`, then a
second `tool_use` block; the result is the follow-up model call's text
for the first `tool_use` block only. -/
theorem chatWithTools_first_tool_use_only_witness :
    (∀ b ∈ [ContentBlock.text "Let me analyze entity 123."], b.isToolUse = false) ∧
    scenarioToolUse.isToolUse = true ∧
    chatWithTools
        (.ok ⟨[ContentBlock.text "Let me analyze entity 123."] ++ scenarioToolUse ::
          [ContentBlock.toolUse "toolu_02" "get_summary" (.obj [])]⟩)
        scenarioExec scenarioSecond
      = .ok (toolRoundTrip scenarioToolUse scenarioExec scenarioSecond) ∧
    toolRoundTrip scenarioToolUse scenarioExec scenarioSecond
      = "Entity 123 shows strong aggregate performance." :=
  ⟨fun b hb => by rw [List.mem_singleton] at hb; subst hb; rfl,
   rfl,
   chatWithTools_first_tool_use_only _ _ _ _ _
     (fun b hb => by rw [List.mem_singleton] at hb; subst hb; rfl) rfl,
   rfl⟩

/-- C2 counterexample: the router performs no schema validation — an
`analyze_data` invocation missing the required `entity_id` field is not
rejected with a client-error status; instead the handler runs, throws,
and the router answers with the wrapped handler failure and status 500. -/
theorem router_no_schema_validation_counterexample :
    POST (.ok (.obj [("tool_name", .str "analyze_data"),
        ("parameters", .obj [("time_period_days", .num 30)])]))
      = ⟨500, .obj [("error", .str "Tool execution failed: entity_id parameter is required"),
                    ("tool_name", .str "analyze_data")]⟩ ∧
    (POST (.ok (.obj [("tool_name", .str "analyze_data"),
        ("parameters", .obj [("time_period_days", .num 30)])]))).status ≠ 400 :=
  ⟨rfl, by decide⟩

/-- C2 (amended): the Router validates only the presence/truthiness of
`tool_name` and `parameters`, not the tool's input schema; an
`analyze_data` invocation whose parameters lack a truthy `entity_id`
reaches the handler, which throws
`"entity_id parameter is required"`, and the Router returns that failure
wrapped in a server-error (500) envelope. -/
theorem router_missing_entity_id_handler_error (ps : List (String × JValue))
    (h : truthyOpt ((JValue.obj ps).getField "entity_id") = false) :
    POST (.ok (.obj [("tool_name", .str "analyze_data"), ("parameters", .obj ps)]))
      = ⟨500, .obj [("error", .str "Tool execution failed: entity_id parameter is required"),
                    ("tool_name", .str "analyze_data")]⟩ := by
  have hh : analyzeDataHandler (.obj ps) = .error "entity_id parameter is required" := by
    unfold analyzeDataHandler
    cases hg : (JValue.obj ps).getField "entity_id" with
    | none => simp [hg]
    | some v =>
        rw [hg] at h
        simp only [truthyOpt] at h
        simp [hg, h]
  have h0 : POST (.ok (.obj [("tool_name", .str "analyze_data"), ("parameters", .obj ps)]))
      = handlerResponse (analyzeDataHandler (.obj ps)) (.str "analyze_data") := rfl
  rw [h0, hh]
  rfl

/-- C2 witness: the amended theorem applied to parameters that carry only
`time_period_days`. -/
theorem router_missing_entity_id_handler_error_witness :
    truthyOpt ((JValue.obj [("time_period_days", JValue.num 30)]).getField "entity_id")
        = false ∧
    POST (.ok (.obj [("tool_name", .str "analyze_data"),
        ("parameters", .obj [("time_period_days", .num 30)])]))
      = ⟨500, .obj [("error", .str "Tool execution failed: entity_id parameter is required"),
                    ("tool_name", .str "analyze_data")]⟩ :=
  ⟨rfl, router_missing_entity_id_handler_error [("time_period_days", .num 30)] rfl⟩

/-- C6: a well-formed request (truthy string `tool_name`, truthy
`parameters`) naming an unregistered tool is answered with status 400 and
an envelope whose `available_tools` lists exactly the registered names
`analyze_data` and `get_summary` — never the unknown name — and no
handler's response is produced. -/
theorem router_unknown_tool_lists_registered (b : List (String × JValue)) (s : String)
    (ps : JValue)
    (hname : (JValue.obj b).getField "tool_name" = some (.str s))
    (hst : (JValue.str s).truthy = true)
    (hps : (JValue.obj b).getField "parameters" = some ps)
    (hpt : ps.truthy = true)
    (hunk : TOOL_REGISTRY.lookup s = none) :
    POST (.ok (.obj b))
      = ⟨400, .obj [("error", .str ("Unknown tool: " ++ s)),
                    ("available_tools", .arr [.str "analyze_data", .str "get_summary"])]⟩ ∧
    JValue.str s ∉ [JValue.str "analyze_data", JValue.str "get_summary"] := by
  constructor
  · have h0 : POST (.ok (.obj b))
        = handleFields ((JValue.obj b).getField "tool_name")
            ((JValue.obj b).getField "parameters") := rfl
    rw [h0, hname, hps]
    simp only [handleFields, hst, Bool.not_true, Bool.false_eq_true, if_false, hpt]
    simp only [registryLookup]
    rw [hunk]
    rfl
  · intro hmem
    rw [List.mem_cons, List.mem_cons] at hmem
    rcases hmem with h1 | h1 | h1
    · rw [show s = "analyze_data" from (JValue.str.injEq _ _).mp h1] at hunk
      simp [TOOL_REGISTRY, List.lookup] at hunk
    · rw [show s = "get_summary" from (JValue.str.injEq _ _).mp h1] at hunk
      simp [TOOL_REGISTRY, List.lookup] at hunk
    · exact absurd h1 (List.not_mem_nil _)

/-- C6 witness: invoking the unregistered name `"foo"`. -/
theorem router_unknown_tool_lists_registered_witness :
    (JValue.obj [("tool_name", JValue.str "foo"), ("parameters", JValue.obj [])]).getField
        "tool_name" = some (.str "foo") ∧
    (JValue.str "foo").truthy = true ∧
    (JValue.obj [("tool_name", JValue.str "foo"), ("parameters", JValue.obj [])]).getField
        "parameters" = some (.obj []) ∧
    (JValue.obj []).truthy = true ∧
    TOOL_REGISTRY.lookup "foo" = none ∧
    (POST (.ok (.obj [("tool_name", .str "foo"), ("parameters", .obj [])]))
        = ⟨400, .obj [("error", .str ("Unknown tool: " ++ "foo")),
                      ("available_tools", .arr [.str "analyze_data", .str "get_summary"])]⟩ ∧
      JValue.str "foo" ∉ [JValue.str "analyze_data", JValue.str "get_summary"]) :=
  ⟨rfl, rfl, rfl, rfl, rfl,
   router_unknown_tool_lists_registered
     [("tool_name", .str "foo"), ("parameters", .obj [])] "foo" (.obj [])
     rfl rfl rfl rfl rfl⟩

/-- C7: whenever the invoked registered tool's handler fails, the Router
answers with the structured envelope
`{error: "Tool execution failed: ...", tool_name}` and status 500 — the
raw handler failure never escapes `POST`, which is a total function into
`RouterResponse`. -/
theorem router_handler_error_wrapped (b : List (String × JValue)) (tn ps : JValue)
    (tool : ToolDefinition) (msg : String)
    (hname : (JValue.obj b).getField "tool_name" = some tn)
    (htn : tn.truthy = true)
    (hps : (JValue.obj b).getField "parameters" = some ps)
    (hpt : ps.truthy = true)
    (hlook : registryLookup tn = some tool)
    (hfail : tool.handler ps = .error msg) :
    POST (.ok (.obj b))
      = ⟨500, .obj [("error", .str ("Tool execution failed: " ++ msg)), ("tool_name", tn)]⟩ := by
  have h0 : POST (.ok (.obj b))
      = handleFields ((JValue.obj b).getField "tool_name")
          ((JValue.obj b).getField "parameters") := rfl
  rw [h0, hname, hps]
  simp only [handleFields, htn, Bool.not_true, Bool.false_eq_true, if_false, hpt]
  rw [hlook]
  simp only [executeLookedUp]
  rw [hfail]
  rfl

/-- C7 witness: the `analyze_data` handler thrown failure (missing
`entity_id`) is wrapped by the router. -/
theorem router_handler_error_wrapped_witness :
    (JValue.obj [("tool_name", JValue.str "analyze_data"),
        ("parameters", JValue.obj [("entity", JValue.str "x")])]).getField "tool_name"
        = some (.str "analyze_data") ∧
    (JValue.str "analyze_data").truthy = true ∧
    (JValue.obj [("tool_name", JValue.str "analyze_data"),
        ("parameters", JValue.obj [("entity", JValue.str "x")])]).getField "parameters"
        = some (.obj [("entity", .str "x")]) ∧
    (JValue.obj [("entity", JValue.str "x")]).truthy = true ∧
    registryLookup (.str "analyze_data") = some analyzeDataTool ∧
    analyzeDataTool.handler (.obj [("entity", .str "x")])
        = .error "entity_id parameter is required" ∧
    POST (.ok (.obj [("tool_name", .str "analyze_data"),
        ("parameters", .obj [("entity", .str "x")])]))
      = ⟨500, .obj [("error", .str ("Tool execution failed: "
            ++ "entity_id parameter is required")),
                    ("tool_name", .str "analyze_data")]⟩ :=
  ⟨rfl, rfl, rfl, rfl, rfl, rfl,
   router_handler_error_wrapped
     [("tool_name", .str "analyze_data"), ("parameters", .obj [("entity", .str "x")])]
     (.str "analyze_data") (.obj [("entity", .str "x")]) analyzeDataTool
     "entity_id parameter is required" rfl rfl rfl rfl rfl rfl⟩
